import Mathlib

/-!
Verification of the typed UDT socket wrapper layer
(`src/src/lib.rs` together with the declarations in
`src/libudt4-sys/lib.rs`) against its natural-language specification.

The Rust source is shallowly embedded: machine integers become `Nat` or
`Int` with an explicit reduction modulo `2 ^ w` wherever the source
performs a truncating cast or fixed-width arithmetic, panics and
fallible paths become `Except`, and each call into the native engine is
parameterized by the outcome the engine reports (return code, buffer
contents, last-error state).  The embedding follows the
`target_os = "linux"` configuration of the source.
-/

namespace Udt

/-- Linux value of `libc::AF_INET`. -/
def AF_INET : Nat := 2

/-- Linux value of `libc::AF_INET6`. -/
def AF_INET6 : Nat := 10

/-- The structured address handed to the codec, mirroring
`std::net::SocketAddr`: a `V4` variant carrying the four octets of the
IP (octet 0 first, as produced by `Ipv4Addr::octets`) and the 16-bit
port, and a `V6` variant whose payload the codec never inspects. -/
inductive SocketAddr where
  | V4 (a0 a1 a2 a3 : Nat) (port : Nat)
  | V6
  deriving Repr, DecidableEq

/-- Validity of a structured address: each octet fits in a `u8` and the
port fits in a `u16`, as the Rust types guarantee. -/
def SocketAddr.valid : SocketAddr → Prop
  | .V4 a0 a1 a2 a3 port => a0 < 256 ∧ a1 < 256 ∧ a2 < 256 ∧ a3 < 256 ∧ port < 65536
  | .V6 => True

/-- The wire record `libc::sockaddr_in` as laid out on linux:
`sin_family : u16`, `sin_port : u16` held in network byte order,
`sin_addr.s_addr : u32`, and the `sin_zero` padding.  The source also
reads the generic `libc::sockaddr` through a transmute to this record;
that transmute is the identity here. -/
structure sockaddr_in where
  sin_family : Nat
  sin_port : Nat
  sin_addr : Nat
  sin_zero : List Nat
  deriving Repr, DecidableEq

/-- Byte swap of a `u16`: `u16::to_be` on the little-endian linux
target. -/
def u16_to_be (x : Nat) : Nat := x % 256 * 256 + x / 256 % 256

/-- Byte swap of a `u16`: `u16::from_be` on the little-endian linux
target. -/
def u16_from_be (x : Nat) : Nat := x % 256 * 256 + x / 256 % 256

/-- The caller-visible failure conditions of the address codec; in the
source each one is a `panic!` call with the quoted message. -/
inductive CodecFailure where
  /-- panic in `get_sockaddr`: "ipv6 not implemented (yet) in this binding" -/
  | ipv6NotImplemented
  /-- panic in `sockaddr_to_socketaddr`: "ipv6 not yet implemented" -/
  | ipv6DecodeNotImplemented
  /-- panic in `sockaddr_to_socketaddr`: "unknown family type" -/
  | unknownFamilyType
  deriving Repr, DecidableEq

/-- `get_sockaddr` (src/src/lib.rs:268, `target_os = "linux"` version):
packs the four IPv4 octets into the `u32` field `s_addr` with octet 0 in
the low byte (`(b3 << 24) + (b2 << 16) + (b1 << 8) + b0` in `u32`
arithmetic), puts the port into network order, sets
`sin_family = AF_INET as u16` and zeroes `sin_zero`; panics when given
an IPv6 address. -/
def get_sockaddr : SocketAddr → Except CodecFailure sockaddr_in
  | .V4 a0 a1 a2 a3 port =>
      .ok { sin_family := AF_INET
            sin_port := u16_to_be port
            sin_addr := ((a3 <<< 24) + (a2 <<< 16) + (a1 <<< 8) + a0) % 2 ^ 32
            sin_zero := List.replicate 8 0 }
  | .V6 => .error .ipv6NotImplemented

/-- `sockaddr_to_socketaddr` (src/src/lib.rs:311): reads the family tag
as an `i32`; for `AF_INET` it extracts the four octets from `s_addr` by
mask-and-shift followed by the `as u8` truncation of the source, and
byte-swaps the port with `u16::from_be`; it panics on `AF_INET6` and on
every other family tag. -/
def sockaddr_to_socketaddr (s : sockaddr_in) : Except CodecFailure SocketAddr :=
  let fam := s.sin_family
  if fam = AF_INET then
    let ip := s.sin_addr
    let d := (ip &&& 0xff000000) >>> 24 % 256
    let c := (ip &&& 0xff0000) >>> 16 % 256
    let b := (ip &&& 0xff00) >>> 8 % 256
    let a := (ip &&& 0xff) % 256
    .ok (.V4 a b c d (u16_from_be s.sin_port))
  else if fam = AF_INET6 then
    .error .ipv6DecodeNotImplemented
  else
    .error .unknownFamilyType

/-- `UdtError` (src/src/lib.rs:88): the structured error value carrying
the numeric code and the description string of the engine. -/
structure UdtError where
  err_code : Int
  err_msg : String
  deriving Repr, DecidableEq

/-- `get_last_err` (src/src/lib.rs:216): packages the process-wide
last-error state of the engine — the code returned by
`udt_getlasterror_code` and the description returned by
`udt_getlasterror_desc`, supplied here as arguments — into a `UdtError`,
unchanged. -/
def get_last_err (code : Int) (msg : String) : UdtError := ⟨code, msg⟩

/-- The value kinds pinned by the typed option layer
(src/src/lib.rs:126-210): `i32`, `i64`, `bool`, and the two-field
`Linger` record. -/
inductive OptValTy where
  | i32
  | i64
  | bool
  | linger
  deriving Repr, DecidableEq

/-- `Linger` (src/src/lib.rs:99): nonzero `onoff` to linger on close,
and the linger time. -/
structure Linger where
  onoff : Int
  linger : Int
  deriving Repr, DecidableEq

/-- The Lean carrier of each pinned value kind. -/
def OptValTy.carrier : OptValTy → Type
  | .i32 => Int
  | .i64 => Int
  | .bool => Bool
  | .linger => Linger

/-- `size_of::<B>()` in bytes for each pinned value kind, on the linux
target (`bool` is one byte, `Linger` is two `i32` fields). -/
def OptValTy.sizeofTy : OptValTy → Int
  | .i32 => 4
  | .i64 => 8
  | .bool => 1
  | .linger => 8

/-- `std::mem::zeroed()` for each pinned value kind. -/
def OptValTy.zeroed : (t : OptValTy) → t.carrier
  | .i32 => (0 : Int)
  | .i64 => (0 : Int)
  | .bool => false
  | .linger => ⟨0, 0⟩

/-- `UDTOpt` (src/libudt4-sys/lib.rs:106): the native option
identifiers of the engine. -/
inductive UDTOpt where
  | UDT_MSS
  | UDT_SNDSYN
  | UDT_RCVSYN
  | UDT_CC
  | UDT_FC
  | UDT_SNDBUF
  | UDT_RCVBUF
  | UDT_LINGER
  | UDP_SNDBUF
  | UDP_RCVBUF
  | UDT_MAXMSG
  | UDT_MSGTTL
  | UDT_RENDEZVOUS
  | UDT_SNDTIMEO
  | UDT_RCVTIMEO
  | UDT_REUSEADDR
  | UDT_MAXBW
  | UDT_STATE
  | UDT_EVENT
  | UDT_SNDDATA
  | UDT_RCVDATA
  deriving Repr, DecidableEq

/-- The closed set of typed option descriptors declared in the
`UdtOpts` module (src/src/lib.rs:108-213) through `impl_udt_opt!`; each
one is a unit struct implementing `UdtOption<T>` for exactly one value
type `T`. -/
inductive UdtOptsDescr where
  | UDT_MSS
  | UDT_SNDSYN
  | UDT_RCVSYN
  | UDT_FC
  | UDT_SNDBUF
  | UDT_RCVBUF
  | UDP_SNDBUF
  | UDP_RCVBUF
  | UDT_LINGER
  | UDT_RENDEZVOUS
  | UDT_SNDTIMEO
  | UDT_RCVTIMEO
  | UDT_REUSEADDR
  | UDT_MAXBW
  | UDT_STATE
  | UDT_EVENT
  | UDT_SNDDATA
  | UDT_RCVDATA
  deriving Repr, DecidableEq

/-- `UdtOption::get_type` as generated by `impl_udt_opt!`
(src/src/lib.rs:49-58): each wrapper descriptor names the same-named
native identifier. -/
def UdtOptsDescr.get_type : UdtOptsDescr → UDTOpt
  | .UDT_MSS => .UDT_MSS
  | .UDT_SNDSYN => .UDT_SNDSYN
  | .UDT_RCVSYN => .UDT_RCVSYN
  | .UDT_FC => .UDT_FC
  | .UDT_SNDBUF => .UDT_SNDBUF
  | .UDT_RCVBUF => .UDT_RCVBUF
  | .UDP_SNDBUF => .UDP_SNDBUF
  | .UDP_RCVBUF => .UDP_RCVBUF
  | .UDT_LINGER => .UDT_LINGER
  | .UDT_RENDEZVOUS => .UDT_RENDEZVOUS
  | .UDT_SNDTIMEO => .UDT_SNDTIMEO
  | .UDT_RCVTIMEO => .UDT_RCVTIMEO
  | .UDT_REUSEADDR => .UDT_REUSEADDR
  | .UDT_MAXBW => .UDT_MAXBW
  | .UDT_STATE => .UDT_STATE
  | .UDT_EVENT => .UDT_EVENT
  | .UDT_SNDDATA => .UDT_SNDDATA
  | .UDT_RCVDATA => .UDT_RCVDATA

/-- The pinned value type of each descriptor: the `$ty` of each
`impl_udt_opt!` invocation (src/src/lib.rs:126-210). -/
def UdtOptsDescr.pinned : UdtOptsDescr → OptValTy
  | .UDT_MSS => .i32
  | .UDT_SNDSYN => .bool
  | .UDT_RCVSYN => .bool
  | .UDT_FC => .i32
  | .UDT_SNDBUF => .i32
  | .UDT_RCVBUF => .i32
  | .UDP_SNDBUF => .i32
  | .UDP_RCVBUF => .i32
  | .UDT_LINGER => .linger
  | .UDT_RENDEZVOUS => .bool
  | .UDT_SNDTIMEO => .i32
  | .UDT_RCVTIMEO => .i32
  | .UDT_REUSEADDR => .bool
  | .UDT_MAXBW => .i64
  | .UDT_STATE => .i32
  | .UDT_EVENT => .i32
  | .UDT_SNDDATA => .i32
  | .UDT_RCVDATA => .i32

/-- The four descriptors whose doc comments mark them "Read only"
(src/src/lib.rs:203-210). -/
def UdtOptsDescr.readOnly : UdtOptsDescr → Bool
  | .UDT_STATE => true
  | .UDT_EVENT => true
  | .UDT_SNDDATA => true
  | .UDT_RCVDATA => true
  | _ => false

/-- What one native `udt_getsockopt` call reports back: the return
code, the value the buffer holds after the call, the byte count the
engine wrote through `optlen`, and the last-error state of the engine at
the time of the call. -/
structure GetSockOptOutcome (t : OptValTy) where
  ret : Int
  filled : t.carrier
  optlen_out : Int
  err_code : Int
  err_msg : String

/-- `UdtSocket::getsockopt` (src/src/lib.rs:756): zero-initializes a
`size_of::<B>()`-sized value, passes `size_of::<B>() as i32` as the
in/out length, and returns the filled buffer whenever the native return
code is `SUCCESS`; the engine-reported byte count `optlen_out` is never
inspected.  On any other return code it returns the last error. -/
def getsockopt (d : UdtOptsDescr) (out : GetSockOptOutcome d.pinned) :
    Except UdtError d.pinned.carrier :=
  if out.ret = 0 then .ok out.filled else .error (get_last_err out.err_code out.err_msg)

/-- The buffer content `getsockopt` starts from: `std::mem::zeroed()`
(src/src/lib.rs:757). -/
def getsockoptInitialBuf (d : UdtOptsDescr) : d.pinned.carrier := d.pinned.zeroed

/-- The `optlen` value `getsockopt` passes in:
`size_of::<B>() as i32` (src/src/lib.rs:760). -/
def getsockoptSizeArg (d : UdtOptsDescr) : Int := d.pinned.sizeofTy

/-- The native call `UdtSocket::setsockopt` (src/src/lib.rs:775)
issues: the untyped option identifier from `opt.get_type()`, the raw
value, and `size_of::<B>() as i32`. -/
structure SetSockOptCall (t : OptValTy) where
  optname : UDTOpt
  optval : t.carrier
  optlen : Int

/-- The native call built by `setsockopt` for descriptor `d` and a
value `v` of its pinned type.  Every descriptor of the closed set is
accepted; the interface carries no read-only restriction. -/
def setsockoptCall (d : UdtOptsDescr) (v : d.pinned.carrier) : SetSockOptCall d.pinned :=
  ⟨d.get_type, v, d.pinned.sizeofTy⟩

/-- Result of `UdtSocket::setsockopt` (src/src/lib.rs:775) for a native
return code `ret` and engine last-error state `(errc, errm)`: `Ok` when
`ret == SUCCESS`, otherwise the last error. -/
def setsockopt (d : UdtOptsDescr) (v : d.pinned.carrier) (ret : Int)
    (errc : Int) (errm : String) : Except UdtError Unit :=
  if ret = 0 then .ok () else .error (get_last_err errc errm)

/-- Shared error-path shape of the simple fallible operations (`bind`,
`connect`, `listen`, `close`, `bind_from`, `setsockopt`, ...):
`if ret == SUCCESS { Ok(()) } else { Err(get_last_err()) }`. -/
def checkRet (ret : Int) (code : Int) (msg : String) : Except UdtError Unit :=
  if ret = 0 then .ok () else .error (get_last_err code msg)

/-- Number of reads of the last-error state (calls of `get_last_err`)
the simple fallible operations perform for a native return code `ret`:
none on success, exactly one on failure. -/
def checkRetLastErrReads (ret : Int) : Nat := if ret = 0 then 0 else 1

/-- The mutable state of an `Epoll` (src/src/lib.rs:798): the two
reusable result buffers `rd_vec` and `wr_vec`, plus the engine-side set
of sockets currently registered with the event set identified by `eid`
(the set lives inside the native engine; it is tracked here so that
registration invariants can be stated). -/
structure EpollState where
  rd_vec : List Int
  wr_vec : List Int
  registered : List Int
  deriving Repr, DecidableEq

/-- `Epoll::create` (src/src/lib.rs:812) on native success: both
reusable buffers start empty, and a fresh event set has no registered
socket. -/
def Epoll.create : EpollState := ⟨[], [], []⟩

/-- One registration call on an `Epoll`, with the native return code
supplied by the engine.  `add_usock` (src/src/lib.rs:823) pushes one
`-1` placeholder onto each reusable buffer when the native call
succeeds, and a successful native add inserts the socket into the
engine-side set (UDT4 inserts into a `std::set`, so a duplicate add also
returns 0 but does not grow the set).  `remove_usock`
(src/src/lib.rs:839) only forwards the native call: a successful native
remove erases the socket from the engine-side set, and the reusable
buffers are never shrunk. -/
inductive EpollOp where
  | add (sock : Int) (ret : Int)
  | remove (sock : Int) (ret : Int)
  deriving Repr, DecidableEq

/-- State transition of one `EpollOp` (see `EpollOp`). -/
def epollStep (st : EpollState) : EpollOp → EpollState
  | .add sock ret =>
      if ret = 0 then
        { st with
            wr_vec := st.wr_vec ++ [-1]
            rd_vec := st.rd_vec ++ [-1]
            registered :=
              if sock ∈ st.registered then st.registered else sock :: st.registered }
      else st
  | .remove sock ret =>
      if ret = 0 then { st with registered := st.registered.erase sock } else st

/-- Run a sequence of registration calls from a fresh `Epoll`. -/
def epollRun (ops : List EpollOp) : EpollState := ops.foldl epollStep Epoll.create

/-- Whether an operation is an `add_usock` call whose native call
succeeded — exactly the calls that push onto the reusable buffers. -/
def isSuccessfulAdd : EpollOp → Bool
  | .add _ ret => decide (ret = 0)
  | .remove _ _ => false

/-- Number of successful `add_usock` calls in a sequence. -/
def countSuccessfulAdds (ops : List EpollOp) : Nat := ops.countP isSuccessfulAdd

/-- Engine model of `udt_epoll_remove_usock` on a valid event set: UDT4
erases the socket from the watch sets and returns 0 whether or not the
socket was registered.  The native body is not under src/; its
observable contract is documented by the wrapper itself
(src/src/lib.rs:838: "If the socket is not part of the epoll, there is
no error"). -/
def udt_epoll_remove_usock (reg : List Int) (sock : Int) : Int × List Int :=
  (0, reg.erase sock)

/-- `Epoll::remove_usock` (src/src/lib.rs:839): forwards the native
call, returning `Ok` iff its return code is 0; the reusable buffers are
not touched.  `errc` and `errm` are the last-error state of the engine,
read by `get_last_err` on the error path. -/
def Epoll.remove_usock (st : EpollState) (sock : Int) (errc : Int) (errm : String) :
    Except UdtError Unit × EpollState :=
  let r := udt_epoll_remove_usock st.registered sock
  if r.1 = 0 then (.ok (), { st with registered := r.2 })
  else (.error (get_last_err errc errm), st)

/-- What the native `udt_epoll_wait2` call reports back: either a
non-negative return with the ready sockets written into the supplied
buffers, or a negative return with the last-error state of the engine
set to the given code and message. -/
inductive WaitOutcome where
  | success (rd_ready : List Int) (wr_ready : List Int)
  | failure (code : Int) (msg : String)
  deriving Repr, DecidableEq

/-- The arguments `Epoll::wait` (src/src/lib.rs:851) hands to the
native call: `rnum` starts as the read-buffer length; when `write` is
false the write-buffer pointer is null and `wnum` is forced to 0, else
`wnum` starts as the write-buffer length. -/
structure WaitNativeArgs where
  rnum : Int
  wr_buf_null : Bool
  wnum : Int
  deriving Repr, DecidableEq

/-- See `WaitNativeArgs`. -/
def waitNativeArgs (st : EpollState) (write : Bool) : WaitNativeArgs :=
  { rnum := st.rd_vec.length
    wr_buf_null := !write
    wnum := if write then st.wr_vec.length else 0 }

/-- `Epoll::wait` (src/src/lib.rs:851), with `outcome` the report of
the native `udt_epoll_wait2` call.  Modelled from the spec: the native
wait wrapper (`udt_wrap.cpp`, code of this repository that is not under
src/) fills the supplied buffers with the ready sockets and writes the
counts back through `rnum` and `wnum`, but collects no write readiness
and leaves `wnum` untouched when the write-buffer pointer is null —
matching the spec, where write interest is considered only when the
`consider_write_interest` flag is set; so with `write = false` the
count keeps the 0 the wrapper stored.  On a negative return the wrapper
reads the last error once; code 6003 (`ETIMEOUT`,
src/libudt4-sys/lib.rs:90) is turned into an empty successful result by
zeroing both counts, and any other code is returned as
`Err(get_last_err())` — a second read of the same last-error state.
The result lists are built by taking `rnum` and `wnum` elements of the
buffers. -/
def Epoll.wait (st : EpollState) (write : Bool) (outcome : WaitOutcome) :
    Except UdtError (List Int × List Int) :=
  match outcome with
  | .failure code msg =>
      if code ≠ 6003 then .error (get_last_err code msg)
      else .ok (st.rd_vec.take 0, st.wr_vec.take 0)
  | .success rd_ready wr_ready =>
      let rnum := rd_ready.length
      let new_rd := rd_ready ++ st.rd_vec.drop rd_ready.length
      let wnum := if write then wr_ready.length else 0
      let new_wr := if write then wr_ready ++ st.wr_vec.drop wr_ready.length else st.wr_vec
      .ok (new_rd.take rnum, new_wr.take wnum)

/-- Number of reads of the last-error state `Epoll::wait` performs for
a given native outcome (src/src/lib.rs:874-882): one to inspect the
code, and — when the code is not 6003 — a second one inside the
returned `Err(get_last_err())`. -/
def Epoll.waitLastErrReads : WaitOutcome → Nat
  | .failure code _ => if code ≠ 6003 then 2 else 1
  | .success _ _ => 0

/-- Process-wide effects of `init` (src/src/lib.rs:66): whether the
`static INIT: Once` guard has fired, how many times `udt_startup` has
run, and how many times the `shutdown` handler (which calls
`udt_cleanup`) has been registered with `libc::atexit`. -/
structure InitState where
  once_done : Bool
  startup_calls : Nat
  atexit_registrations : Nat
  deriving Repr, DecidableEq

/-- A process in which `init` has never been called. -/
def InitState.fresh : InitState := ⟨false, 0, 0⟩

/-- One call of `init` (src/src/lib.rs:66): `Once::call_once` runs the
closure — `udt_startup()` followed by `atexit(shutdown)` — exactly when
the guard has not fired yet, and marks the guard fired. -/
def initCall (s : InitState) : InitState :=
  if s.once_done then s
  else ⟨true, s.startup_calls + 1, s.atexit_registrations + 1⟩

/-- `n` successive calls of `init` from arbitrary call sites. -/
def initCalls : Nat → InitState → InitState
  | 0, s => s
  | n + 1, s => initCalls n (initCall s)

/-! ### Helper lemmas -/

/-- Masking with a left-shifted mask and shifting back equals shifting
first and masking. -/
theorem and_shiftLeft_shiftRight (x m k : Nat) :
    (x &&& m <<< k) >>> k = x >>> k &&& m := by
  apply Nat.eq_of_testBit_eq
  intro i
  simp [Nat.testBit_and, Nat.testBit_shiftRight, Nat.testBit_shiftLeft,
    Nat.le_add_right, Nat.add_sub_cancel_left]

/-- Extracting the byte at offset `k` by mask-and-shift equals the
corresponding divide-and-reduce. -/
theorem byte_extract (x k : Nat) :
    (x &&& 255 <<< k) >>> k = x / 2 ^ k % 256 := by
  rw [and_shiftLeft_shiftRight, Nat.shiftRight_eq_div_pow,
    show (255 : Nat) = 2 ^ 8 - 1 by norm_num, Nat.and_pow_two_sub_one_eq_mod]

/-- Swapping the bytes of a `u16` twice is the identity. -/
theorem u16_swap_swap (x : Nat) (hx : x < 65536) : u16_from_be (u16_to_be x) = x := by
  unfold u16_to_be u16_from_be
  have hq : x / 256 < 256 := by omega
  have h1 : x / 256 % 256 = x / 256 := Nat.mod_eq_of_lt hq
  rw [h1, Nat.mul_comm (x % 256) 256]
  rw [Nat.mul_add_mod, Nat.mul_add_div (by norm_num : (256 : Nat) > 0), h1,
    Nat.div_eq_of_lt hq]
  omega

/-! ### Claim theorems -/

/-- C1: for every valid IPv4 address (four octets below 256 and a port
below 65536), decoding the wire `sockaddr` produced by encoding the
address returns the address unchanged:
`sockaddr_to_socketaddr(get_sockaddr(a)) == a`. -/
theorem sockaddr_roundtrip (a0 a1 a2 a3 port : Nat)
    (h : (SocketAddr.V4 a0 a1 a2 a3 port).valid) :
    (get_sockaddr (.V4 a0 a1 a2 a3 port)).bind sockaddr_to_socketaddr
      = .ok (.V4 a0 a1 a2 a3 port) := by
  obtain ⟨h0, h1, h2, h3, hp⟩ := h
  simp only [get_sockaddr, Except.bind, sockaddr_to_socketaddr, AF_INET, AF_INET6,
    Nat.shiftLeft_eq]
  rw [if_pos trivial]
  rw [u16_swap_swap port hp]
  rw [show (0xff000000 : Nat) = 255 <<< 24 by decide, byte_extract,
    show (0xff0000 : Nat) = 255 <<< 16 by decide, byte_extract,
    show (0xff00 : Nat) = 255 <<< 8 by decide, byte_extract,
    show (0xff : Nat) = 2 ^ 8 - 1 by decide, Nat.and_pow_two_sub_one_eq_mod]
  simp only [Except.ok.injEq, SocketAddr.V4.injEq]
  refine ⟨?_, ?_, ?_, ?_, ?_⟩
  all_goals try simp only [show (2 : Nat) ^ 8 = 256 by norm_num,
    show (2 : Nat) ^ 16 = 65536 by norm_num,
    show (2 : Nat) ^ 24 = 16777216 by norm_num,
    show (2 : Nat) ^ 32 = 4294967296 by norm_num]
  all_goals omega

/-- Witness for C1 at the concrete address 127.0.0.1:9000. -/
theorem sockaddr_roundtrip_witness :
    (get_sockaddr (.V4 127 0 0 1 9000)).bind sockaddr_to_socketaddr
      = .ok (.V4 127 0 0 1 9000) :=
  sockaddr_roundtrip 127 0 0 1 9000 (by constructor <;> norm_num)

/-- C8: encoding an IPv6 address fails with the documented
unsupported-family panic and produces no wire bytes, and decoding a wire
record whose family tag is anything other than `AF_INET` fails — with
the explicit ipv6-unimplemented panic for `AF_INET6` and the
unknown-family panic for every other tag. -/
theorem codec_rejects_non_ipv4 (s : sockaddr_in) (hs : s.sin_family ≠ AF_INET) :
    get_sockaddr .V6 = .error .ipv6NotImplemented ∧
    sockaddr_to_socketaddr s =
      .error (if s.sin_family = AF_INET6 then CodecFailure.ipv6DecodeNotImplemented
              else CodecFailure.unknownFamilyType) := by
  refine ⟨rfl, ?_⟩
  simp only [AF_INET, AF_INET6] at hs ⊢
  by_cases h6 : s.sin_family = 10 <;>
    simp [sockaddr_to_socketaddr, AF_INET, AF_INET6, hs, h6]

/-- Witness for C8 at a wire record carrying the `AF_INET6` family
tag. -/
theorem codec_rejects_non_ipv4_witness :
    get_sockaddr .V6 = .error .ipv6NotImplemented ∧
    sockaddr_to_socketaddr ⟨10, 0, 0, []⟩ =
      .error (if (sockaddr_in.mk 10 0 0 []).sin_family = AF_INET6
              then CodecFailure.ipv6DecodeNotImplemented
              else CodecFailure.unknownFamilyType) :=
  codec_rejects_non_ipv4 ⟨10, 0, 0, []⟩ (by decide)

/-- C2 counterexample: after a successful `add_usock` followed by a
successful `remove_usock` of the same socket, both reusable buffers
still have length 1 while no handle is registered any more, so buffer
length differs from the registered-handle count at the start of any
subsequent `wait` call. -/
theorem epoll_buffer_invariant_cex :
    (epollRun [EpollOp.add 5 0, EpollOp.remove 5 0]).rd_vec.length = 1 ∧
    (epollRun [EpollOp.add 5 0, EpollOp.remove 5 0]).wr_vec.length = 1 ∧
    (epollRun [EpollOp.add 5 0, EpollOp.remove 5 0]).registered.length = 0 := by
  decide

/-- Effect of one registration call on the buffer lengths and on the
registered-handle count. -/
theorem epollStep_lengths (st : EpollState) (op : EpollOp) :
    (epollStep st op).rd_vec.length
        = st.rd_vec.length + (if isSuccessfulAdd op then 1 else 0) ∧
    (epollStep st op).wr_vec.length
        = st.wr_vec.length + (if isSuccessfulAdd op then 1 else 0) ∧
    (epollStep st op).registered.length
        ≤ st.registered.length + (if isSuccessfulAdd op then 1 else 0) := by
  cases op with
  | add sock ret =>
    by_cases hr : ret = 0
    · refine ⟨?_, ?_, ?_⟩ <;> simp [epollStep, isSuccessfulAdd, hr]
      split
      · omega
      · simp
    · simp [epollStep, isSuccessfulAdd, hr]
  | remove sock ret =>
    by_cases hr : ret = 0 <;>
      simp [epollStep, isSuccessfulAdd, hr, List.length_erase_le]

/-- Running a sequence of registration calls adds one slot to each
reusable buffer per successful add, while the registered-handle count
can only grow by that much. -/
theorem epollRun_invariant (ops : List EpollOp) (st : EpollState) :
    (ops.foldl epollStep st).rd_vec.length
        = st.rd_vec.length + countSuccessfulAdds ops ∧
    (ops.foldl epollStep st).wr_vec.length
        = st.wr_vec.length + countSuccessfulAdds ops ∧
    (ops.foldl epollStep st).registered.length
        ≤ st.registered.length + countSuccessfulAdds ops := by
  induction ops generalizing st with
  | nil => simp [countSuccessfulAdds]
  | cons op ops ih =>
    obtain ⟨ih1, ih2, ih3⟩ := ih (epollStep st op)
    obtain ⟨hs1, hs2, hs3⟩ := epollStep_lengths st op
    simp only [List.foldl_cons, countSuccessfulAdds, List.countP_cons] at *
    omega

/-- C2 amended: both reusable buffers have length equal to the number
of successful `add_usock` calls so far — `remove_usock` never shrinks
them — so before any `wait` call the buffer lengths only bound the
registered-handle count from above; they equal it until the first
successful remove (or duplicate add). -/
theorem epoll_buffers_track_adds (ops : List EpollOp) :
    (epollRun ops).rd_vec.length = countSuccessfulAdds ops ∧
    (epollRun ops).wr_vec.length = countSuccessfulAdds ops ∧
    (epollRun ops).registered.length ≤ countSuccessfulAdds ops := by
  have h := epollRun_invariant ops Epoll.create
  simpa [epollRun, Epoll.create] using h

/-- C7 counterexample: removing socket 7 from a freshly created event
set — on which nothing is registered — returns `Ok`, not an error. -/
theorem remove_unregistered_cex :
    (Epoll.remove_usock Epoll.create 7 0 "").1 = .ok () ∧
    (7 : Int) ∉ Epoll.create.registered :=
  ⟨rfl, by simp [Epoll.create]⟩

/-- C7 amended: `remove_usock` reports `Ok` exactly when the native
call returns 0, and the native remove — as the wrapper itself documents
— returns 0 even for a socket that is not registered; so removing an
unregistered socket succeeds and leaves the registration set
unchanged. -/
theorem remove_unregistered_ok (st : EpollState) (sock : Int)
    (errc : Int) (errm : String) (h : sock ∉ st.registered) :
    (Epoll.remove_usock st sock errc errm).1 = .ok () ∧
    (Epoll.remove_usock st sock errc errm).2.registered = st.registered := by
  refine ⟨rfl, ?_⟩
  simp [Epoll.remove_usock, udt_epoll_remove_usock, List.erase_of_not_mem h]

/-- Witness for C7 amended: an event set with socket 5 registered, from
which socket 7 is removed. -/
theorem remove_unregistered_ok_witness :
    (Epoll.remove_usock ⟨[-1], [-1], [5]⟩ 7 0 "").1 = .ok () ∧
    (Epoll.remove_usock ⟨[-1], [-1], [5]⟩ 7 0 "").2.registered =
      (⟨[-1], [-1], [5]⟩ : EpollState).registered :=
  remove_unregistered_ok ⟨[-1], [-1], [5]⟩ 7 0 "" (by decide)

/-- C3: `Epoll::wait` converts exactly the engine failure code 6003
(timeout before operation completes) into a successful result with both
the read-ready and the write-ready list empty; a native failure with
any other code is returned to the caller as the error read from the
engine. -/
theorem wait_timeout_empty_success (st : EpollState) (write : Bool)
    (code : Int) (msg : String) :
    Epoll.wait st write (.failure code msg) =
      if code = 6003 then .ok (([], []) : List Int × List Int)
      else .error ⟨code, msg⟩ := by
  by_cases hc : code = 6003 <;> simp [Epoll.wait, get_last_err, hc]

/-- C6 counterexample: on a native failure with code 5004, `Epoll::wait`
reads the process-wide last-error state twice — once to inspect the code
and a second time to build the returned error — not exactly once as the
claim states. -/
theorem wait_lasterr_double_read_cex :
    Epoll.waitLastErrReads (.failure 5004 "Invalid UDT socket") = 2 ∧
    (2 : Nat) ≠ 1 := by
  refine ⟨?_, by decide⟩
  rfl

/-- C6 amended: every fallible operation, immediately after its native
call reports failure and before any other native call, reads the
last-error state and returns an error carrying the engine numeric code
and description string unchanged; the simple operations read the state
exactly once, while `Epoll::wait` on a non-timeout failure reads the
same state twice (both reads adjacent, so they observe the same
values). -/
theorem lasterr_propagated_unchanged (ret code : Int) (msg : String)
    (st : EpollState) (write : Bool) (hret : ret ≠ 0) (hcode : code ≠ 6003) :
    checkRet ret code msg = .error ⟨code, msg⟩ ∧
    checkRetLastErrReads ret = 1 ∧
    Epoll.wait st write (.failure code msg) = .error ⟨code, msg⟩ ∧
    Epoll.waitLastErrReads (.failure code msg) = 2 := by
  refine ⟨?_, ?_, ?_, ?_⟩ <;>
    simp [checkRet, checkRetLastErrReads, Epoll.wait, Epoll.waitLastErrReads,
      get_last_err, hret, hcode]

/-- Witness for C6 amended at return code -1 and error code 2001. -/
theorem lasterr_propagated_unchanged_witness :
    checkRet (-1) 2001 "Connection was broken" =
      .error ⟨2001, "Connection was broken"⟩ ∧
    checkRetLastErrReads (-1) = 1 ∧
    Epoll.wait Epoll.create true (.failure 2001 "Connection was broken") =
      .error ⟨2001, "Connection was broken"⟩ ∧
    Epoll.waitLastErrReads (.failure 2001 "Connection was broken") = 2 :=
  lasterr_propagated_unchanged (-1) 2001 "Connection was broken" Epoll.create true
    (by decide) (by decide)

/-- C10: when `Epoll::wait` is called with the write-interest flag
false, the native call receives a null write buffer with the write
count forced to 0, and every successful result carries an empty
write-ready list, whatever readiness the engine reports. -/
theorem wait_without_write_interest (st : EpollState) (outcome : WaitOutcome)
    (res : List Int × List Int) (h : Epoll.wait st false outcome = .ok res) :
    (waitNativeArgs st false).wr_buf_null = true ∧
    (waitNativeArgs st false).wnum = 0 ∧
    res.2 = [] := by
  refine ⟨rfl, rfl, ?_⟩
  cases outcome with
  | failure code msg =>
    by_cases hc : code = 6003
    · rw [show Epoll.wait st false (.failure code msg) = .ok ([], []) from by
        simp [Epoll.wait, hc]] at h
      injection h with h2
      rw [← h2]
    · simp [Epoll.wait, hc, get_last_err] at h
  | success rd_ready wr_ready =>
    rw [show Epoll.wait st false (.success rd_ready wr_ready)
        = .ok ((rd_ready ++ st.rd_vec.drop rd_ready.length).take rd_ready.length, [])
        from by simp [Epoll.wait]] at h
    injection h with h2
    rw [← h2]

/-- Witness for C10: an engine report with one read-ready and one
write-ready socket still yields an empty write-ready list. -/
theorem wait_without_write_interest_witness :
    (waitNativeArgs Epoll.create false).wr_buf_null = true ∧
    (waitNativeArgs Epoll.create false).wnum = 0 ∧
    (([3], []) : List Int × List Int).2 = [] :=
  wait_without_write_interest Epoll.create (.success [3] [4]) ([3], []) rfl

/-- C4 counterexample: for the `UDT_MSS` descriptor (pinned type `i32`,
4 bytes), a native call reporting success but an engine byte count of 1
still returns the buffer value as `Ok` — the size mismatch is not
surfaced as a defect. -/
theorem getsockopt_no_size_check_cex :
    getsockopt .UDT_MSS ⟨0, (7 : Int), 1, 0, ""⟩ = .ok (7 : Int) ∧
    (1 : Int) ≠ getsockoptSizeArg .UDT_MSS := by
  refine ⟨rfl, by decide⟩

/-- C4 amended: `getsockopt` zero-initializes a `sizeof(T)`-sized
buffer and passes `sizeof(T)` as the length argument, but returns the
filled value whenever the engine reports success — its result does not
depend on the engine-reported byte count — and on a non-zero return
code it returns the last error unchanged. -/
theorem getsockopt_ignores_reported_size (d : UdtOptsDescr) (ret : Int)
    (v : d.pinned.carrier) (len1 len2 ec : Int) (em : String) :
    getsockoptInitialBuf d = d.pinned.zeroed ∧
    getsockoptSizeArg d = d.pinned.sizeofTy ∧
    getsockopt d ⟨ret, v, len1, ec, em⟩ = getsockopt d ⟨ret, v, len2, ec, em⟩ ∧
    getsockopt d ⟨ret, v, len1, ec, em⟩ =
      (if ret = 0 then .ok v else .error ⟨ec, em⟩) :=
  ⟨rfl, rfl, rfl, rfl⟩

/-- C5 counterexample: the read-only descriptor `UDT_STATE` can be
passed to `setsockopt` — the typed interface accepts it with its pinned
`i32` value type and issues a native set call carrying the `UDT_STATE`
identifier, which the claim says is not expressible. -/
theorem setsockopt_readonly_expressible_cex :
    UdtOptsDescr.readOnly .UDT_STATE = true ∧
    (setsockoptCall .UDT_STATE (5 : Int)).optname = UDTOpt.UDT_STATE ∧
    setsockopt .UDT_STATE (5 : Int) 0 0 "" = .ok () :=
  ⟨rfl, rfl, rfl⟩

/-- C5 amended: the typed interface imposes no read-only restriction:
every descriptor of the closed set — the four read-only ones included —
is accepted by `setsockopt` with its pinned value type, and the issued
native call carries that descriptor identifier, the unchanged value and
the pinned size; rejecting a set on a read-only option is left to the
engine at runtime. -/
theorem setsockopt_accepts_every_descriptor (d : UdtOptsDescr)
    (v : d.pinned.carrier) (ret errc : Int) (errm : String) :
    (setsockoptCall d v).optname = d.get_type ∧
    (setsockoptCall d v).optval = v ∧
    (setsockoptCall d v).optlen = d.pinned.sizeofTy ∧
    setsockopt d v ret errc errm =
      (if ret = 0 then .ok () else .error ⟨errc, errm⟩) :=
  ⟨rfl, rfl, rfl, rfl⟩

/-- Once the one-time guard has fired, further `init` calls change
nothing. -/
theorem initCalls_fixed (n : Nat) (s : InitState) (h : s.once_done = true) :
    initCalls n s = s := by
  induction n generalizing s with
  | zero => rfl
  | succ n ih =>
    rw [initCalls, initCall, if_pos h]
    exact ih s h

/-- C9: for every number `n ≥ 1` of `init` calls in a process, from any
call sites, `udt_startup` runs exactly once — hence at most once — and
the `shutdown` handler that invokes `udt_cleanup` is registered with
`atexit` exactly once. -/
theorem init_runs_startup_once (n : Nat) (h : 1 ≤ n) :
    (initCalls n InitState.fresh).startup_calls = 1 ∧
    (initCalls n InitState.fresh).atexit_registrations = 1 := by
  obtain ⟨m, rfl⟩ : ∃ m, n = m + 1 := ⟨n - 1, by omega⟩
  rw [initCalls, show initCall InitState.fresh = ⟨true, 1, 1⟩ from rfl,
    initCalls_fixed m ⟨true, 1, 1⟩ rfl]
  exact ⟨rfl, rfl⟩

/-- Witness for C9 at three `init` calls. -/
theorem init_runs_startup_once_witness :
    (initCalls 3 InitState.fresh).startup_calls = 1 ∧
    (initCalls 3 InitState.fresh).atexit_registrations = 1 :=
  init_runs_startup_once 3 (by norm_num)

end Udt
